import Mathlib

/-!
A formal model of the ORBIT decision pipeline: the decision gate
(decision_engine.py), the behavior state machine (behavior_fsm.py), the
hybrid intent proposer (ai_brain_v2.py) and the orchestrator tick loop
(main_v2.py), with proofs of the specified invariants.

Modelling conventions:
* Python floats (timestamps, confidences, cooldown values) are modelled as
  rationals; decimal literals are written as in the source.
* Python dictionaries with absent-key defaults are modelled as total
  functions whose value on an absent key is the default.
* Wall-clock reads (time.time(), datetime.now().hour) are passed in as
  explicit parameters; one clock value is used per call.
* Randomness (random.uniform, random.choices) is modelled by explicit
  noise/pick parameters ranging over every draw the library can produce.
* A Python function that can raise returns a PyResult value.
* Logging calls are side-effect free and are dropped.
-/

/-- Result of running a Python code path: a normal return or a raised
exception (identified by its class name). -/
inductive PyResult (α : Type) where
  | ok (a : α)
  | exc (name : String)
deriving DecidableEq

/-- Python int(x) on a float: truncation toward zero. -/
def pyInt (q : ℚ) : ℤ := if q < 0 then q.ceil else q.floor

/-- Python str.lower() restricted to the ASCII strings this program uses. -/
def lowerStr (s : String) : String := String.mk (s.data.map Char.toLower)

/-- Python substring containment (the `in` operator on strings), on
character lists. -/
def hasSub (sub : List Char) : List Char → Bool
  | [] => sub.isEmpty
  | c :: rest => sub.isPrefixOf (c :: rest) || hasSub sub rest

/-- Python truthiness of an Optional[float]: None and 0.0 are falsy. -/
def truthy (x : Option ℚ) : Bool :=
  match x with
  | none => false
  | some t => !(t == 0)

/-- Insert a string into a list sorted by a numeric key, before the first
strictly larger key (keeps equal keys in their original order). -/
def insertByKey (key : String → ℕ) (x : String) : List String → List String
  | [] => [x]
  | y :: ys => if key x ≤ key y then x :: y :: ys else y :: insertByKey key x ys

/-- Stable sort by a numeric key: the model of Python list.sort(key=...). -/
def sortByKey (key : String → ℕ) : List String → List String
  | [] => []
  | x :: xs => insertByKey key x (sortByKey key xs)

/-!  ## Data model (decision_engine.py)  -/

/-- IntentType enum. -/
inductive IntentType where
  | SUGGEST_HELP
  | REMIND
  | INFO
  | NONE
deriving DecidableEq

/-- Context snapshot dictionary as read by the gate and the proposer.
The aggregator emits every key on every snapshot, so none in active_app,
window_title and is_idle models the stored value None (the window monitor
reports app_name None when no foreground window is found and on errors),
not a missing key; the numeric fields fold in the dict.get defaults the
readers use. -/
structure Context where
  active_app : Option String := none
  window_title : Option String := none
  is_idle : Option Bool := none
  idle_time : ℚ := 0
  error_count : ℕ := 0
  recent_file_changes : ℕ := 0
deriving DecidableEq

/-- Intent dataclass. The creation timestamp (a wall-clock default factory)
and the free-form metadata dict are never read by the code modelled here
and are omitted. -/
structure Intent where
  type : IntentType
  confidence : ℚ
  message : String
  reasoning : String := ""
deriving DecidableEq

/-- DecisionResult dataclass. next_allowed_time keeps the raw epoch value;
the source renders it as an ISO string, a formatting step nothing reads
back. -/
structure DecisionResult where
  approved : Bool
  intent : Option Intent
  reason : String
  next_allowed_time : Option ℚ := none
deriving DecidableEq

/-!  ## CooldownManager  -/

/-- CooldownManager state; defaults are the v0.2 testing constructor
defaults. The per-type dict is a total function, absent key = none. -/
structure CooldownManager where
  per_intent_cooldown : ℚ := 10
  global_cooldown : ℚ := 5
  dismiss_cooldown : ℚ := 600
  last_intent_time : IntentType → Option ℚ := fun _ => none
  last_popup_time : Option ℚ := none
  last_dismiss_time : Option ℚ := none

/-- CooldownManager.can_show_intent: the three early-return checks of the
source flattened into one if-chain (the checks have no side effects).
Numeric text in the reasons uses pyInt as the source's int() does. -/
def CooldownManager.can_show_intent (cm : CooldownManager) (intent_type : IntentType)
    (now : ℚ) : Bool × String :=
  if truthy cm.last_dismiss_time ∧ now - cm.last_dismiss_time.getD 0 < cm.dismiss_cooldown then
    (false, "User dismissed recently (wait "
      ++ toString (pyInt (cm.dismiss_cooldown - (now - cm.last_dismiss_time.getD 0))) ++ "s)")
  else if truthy cm.last_popup_time ∧ now - cm.last_popup_time.getD 0 < cm.global_cooldown then
    (false, "Global cooldown active (wait "
      ++ toString (pyInt (cm.global_cooldown - (now - cm.last_popup_time.getD 0))) ++ "s)")
  else if (cm.last_intent_time intent_type).isSome
      ∧ now - (cm.last_intent_time intent_type).getD 0 < cm.per_intent_cooldown then
    (false, "Intent cooldown active (wait "
      ++ toString (pyInt (cm.per_intent_cooldown
            - (now - (cm.last_intent_time intent_type).getD 0))) ++ "s)")
  else
    (true, "Cooldown passed")

/-- CooldownManager.record_popup. -/
def CooldownManager.record_popup (cm : CooldownManager) (intent_type : IntentType)
    (now : ℚ) : CooldownManager :=
  { cm with
    last_popup_time := some now
    last_intent_time := fun t => if t = intent_type then some now else cm.last_intent_time t }

/-- CooldownManager.record_dismiss. -/
def CooldownManager.record_dismiss (cm : CooldownManager) (now : ℚ) : CooldownManager :=
  { cm with last_dismiss_time := some now }

/-- CooldownManager.get_next_allowed_time (raw epoch value; the ISO
rendering of the source is a formatting step nothing reads back). -/
def CooldownManager.get_next_allowed_time (cm : CooldownManager) (intent_type : IntentType)
    (now : ℚ) : Option ℚ :=
  let next_times : List ℚ :=
    (if truthy cm.last_dismiss_time then [cm.last_dismiss_time.getD 0 + cm.dismiss_cooldown] else [])
    ++ (if truthy cm.last_popup_time then [cm.last_popup_time.getD 0 + cm.global_cooldown] else [])
    ++ (if (cm.last_intent_time intent_type).isSome
          then [(cm.last_intent_time intent_type).getD 0 + cm.per_intent_cooldown] else [])
  match next_times with
  | [] => none
  | h :: t =>
    let next_time := t.foldl max h
    if next_time ≤ now then none else some next_time

/-- CooldownManager.reset. -/
def CooldownManager.reset (cm : CooldownManager) : CooldownManager :=
  { cm with
    last_intent_time := fun _ => none
    last_popup_time := none
    last_dismiss_time := none }

/-!  ## SpamFilter  -/

/-- SpamFilter state; defaults are the v0.2 testing constructor defaults.
The per-type history dict is a total function; the source deletes a key
whose list became empty, which is observationally the empty list. -/
structure SpamFilter where
  max_popups_per_hour : ℕ := 100
  same_intent_window : ℚ := 15
  popup_history : List ℚ := []
  intent_history : IntentType → List ℚ := fun _ => []

/-- SpamFilter._cleanup_old_history. -/
def SpamFilter.cleanup_old_history (sf : SpamFilter) (now : ℚ) : SpamFilter :=
  let cutoff := now - 3600
  { sf with
    popup_history := sf.popup_history.filter (fun t => cutoff < t)
    intent_history := fun ty => (sf.intent_history ty).filter (fun t => cutoff < t) }

/-- SpamFilter.is_spam. Mutates the filter through the cleanup, so the
updated filter is returned alongside the verdict. -/
def SpamFilter.is_spam (sf : SpamFilter) (intent_type : IntentType) (now : ℚ) :
    (Bool × String) × SpamFilter :=
  let sf := sf.cleanup_old_history now
  if sf.max_popups_per_hour ≤ sf.popup_history.length then
    ((true, "Max popups/hour reached (" ++ toString sf.max_popups_per_hour ++ ")"), sf)
  else
    let recent := (sf.intent_history intent_type).filter (fun t => now - t < sf.same_intent_window)
    if 0 < recent.length then
      ((true, "Same intent shown recently (<" ++ toString sf.same_intent_window ++ "s)"), sf)
    else
      ((false, "Not spam"), sf)

/-- SpamFilter.record_popup. -/
def SpamFilter.record_popup (sf : SpamFilter) (intent_type : IntentType) (now : ℚ) :
    SpamFilter :=
  { sf with
    popup_history := sf.popup_history ++ [now]
    intent_history := fun t =>
      if t = intent_type then sf.intent_history t ++ [now] else sf.intent_history t }

/-- SpamFilter.reset. -/
def SpamFilter.reset (sf : SpamFilter) : SpamFilter :=
  { sf with popup_history := [], intent_history := fun _ => [] }

/-!  ## ConfidenceDecay  -/

/-- ConfidenceDecay state. The per-type dismiss-count dict is a total
function, absent key = 0 (dict.get default in the source). -/
structure ConfidenceDecay where
  dismiss_count : IntentType → ℕ := fun _ => 0
  last_context : Option Context := none

/-- ConfidenceDecay._context_changed_significantly. -/
def ConfidenceDecay.context_changed_significantly (cd : ConfidenceDecay)
    (new_context : Context) : Bool :=
  match cd.last_context with
  | none => false
  | some last =>
    (last.active_app != new_context.active_app) || (last.is_idle != new_context.is_idle)

/-- ConfidenceDecay.apply_decay. Returns the decayed confidence and the
updated tracker (the previous-context slot is overwritten on every call). -/
def ConfidenceDecay.apply_decay (cd : ConfidenceDecay) (intent : Intent) (context : Context)
    (time_since_generation : ℚ) : ℚ × ConfidenceDecay :=
  let confidence := intent.confidence
  let dismiss_count := cd.dismiss_count intent.type
  let confidence :=
    if 0 < dismiss_count then confidence - 0.1 * (dismiss_count : ℚ) else confidence
  let confidence :=
    if cd.last_context.isSome then
      if cd.context_changed_significantly context then confidence - 0.15 else confidence
    else confidence
  let confidence :=
    if 60 < time_since_generation then
      confidence - min 0.2 (time_since_generation / 300 * 0.2)
    else confidence
  (max 0 (min 1 confidence), { cd with last_context := some context })

/-- ConfidenceDecay.record_dismiss. -/
def ConfidenceDecay.record_dismiss (cd : ConfidenceDecay) (intent_type : IntentType) :
    ConfidenceDecay :=
  { cd with dismiss_count := fun t =>
      if t = intent_type then cd.dismiss_count t + 1 else cd.dismiss_count t }

/-- ConfidenceDecay.reset. -/
def ConfidenceDecay.reset (_cd : ConfidenceDecay) : ConfidenceDecay :=
  { dismiss_count := fun _ => 0, last_context := none }

/-!  ## DecisionEngine  -/

/-- DecisionEngine: the three components, as constructed by the
no-argument constructor. -/
structure DecisionEngine where
  cooldown_manager : CooldownManager := {}
  spam_filter : SpamFilter := {}
  confidence_decay : ConfidenceDecay := {}

/-- DecisionEngine.CONFIDENCE_THRESHOLD. -/
def CONFIDENCE_THRESHOLD : ℚ := 0.7

/-- DecisionEngine.evaluate. Decimal rendering inside reason strings is
abstracted to toString; the constant parts of the reasons are verbatim. -/
def DecisionEngine.evaluate (de : DecisionEngine) (intent : Intent) (context : Context)
    (time_since_generation : ℚ) (now : ℚ) : DecisionResult × DecisionEngine :=
  let decayed := de.confidence_decay.apply_decay intent context time_since_generation
  let decayed_confidence := decayed.1
  let de := { de with confidence_decay := decayed.2 }
  if decayed_confidence < CONFIDENCE_THRESHOLD then
    ({ approved := false, intent := some intent,
       reason := "Confidence too low: " ++ toString decayed_confidence
         ++ " < " ++ toString CONFIDENCE_THRESHOLD }, de)
  else
    let can := de.cooldown_manager.can_show_intent intent.type now
    if can.1 = false then
      ({ approved := false, intent := some intent,
         reason := "Cooldown: " ++ can.2,
         next_allowed_time := de.cooldown_manager.get_next_allowed_time intent.type now }, de)
    else
      let spam := de.spam_filter.is_spam intent.type now
      let de := { de with spam_filter := spam.2 }
      if spam.1.1 = true then
        ({ approved := false, intent := some intent,
           reason := "Spam filter: " ++ spam.1.2 }, de)
      else
        let de := { de with
          cooldown_manager := de.cooldown_manager.record_popup intent.type now
          spam_filter := de.spam_filter.record_popup intent.type now }
        ({ approved := true, intent := some intent, reason := "All checks passed",
           next_allowed_time := de.cooldown_manager.get_next_allowed_time intent.type now }, de)

/-- DecisionEngine.handle_user_dismiss. -/
def DecisionEngine.handle_user_dismiss (de : DecisionEngine) (now : ℚ) : DecisionEngine :=
  { de with cooldown_manager := de.cooldown_manager.record_dismiss now }

/-- DecisionEngine.handle_intent_dismissed. -/
def DecisionEngine.handle_intent_dismissed (de : DecisionEngine) (intent_type : IntentType) :
    DecisionEngine :=
  { de with confidence_decay := de.confidence_decay.record_dismiss intent_type }

/-- DecisionEngine.reset. -/
def DecisionEngine.reset (de : DecisionEngine) : DecisionEngine :=
  { cooldown_manager := de.cooldown_manager.reset
    spam_filter := de.spam_filter.reset
    confidence_decay := de.confidence_decay.reset }

/-!  ## Behavior FSM (behavior_fsm.py)  -/

/-- FSM State enum. -/
inductive State where
  | IDLE
  | OBSERVING
  | SUGGESTING
  | EXECUTING
  | SUPPRESSED
  | COOLDOWN_GLOBAL
deriving DecidableEq

/-- FSM Event enum. -/
inductive Event where
  | CONTEXT_CHANGED
  | INTENT_APPROVED
  | USER_DISMISS
  | USER_ACTION
  | TIMEOUT
  | COOLDOWN_EXPIRED
  | ENTER_FOCUS_MODE
  | EXIT_FOCUS_MODE
deriving DecidableEq

/-- Data passed with an event (the data dict of trigger_event; metadata is
never read downstream and is omitted). An absent key is none. -/
structure EventData where
  intent : Option Intent := none
  context : Option Context := none
deriving DecidableEq

/-- StateData dataclass; entered_at keeps the numeric clock instead of the
source's ISO rendering of it. The context dict default is none. -/
structure StateData where
  state : State
  entered_at : ℚ
  intent : Option Intent := none
  context : Option Context := none
deriving DecidableEq

/-- Bubble dict inside a UI update. -/
structure Bubble where
  text : String
  actions : List String
deriving DecidableEq

/-- UIOutput dataclass. -/
structure UIOutput where
  state : String
  emotion : String
  visible : Bool
  bubble : Option Bubble := none
  actions : List String := []
deriving DecidableEq

/-- BehaviorFSM state. Callbacks perform I/O only and are dropped; history
entries are (from, to, event, clock). -/
structure BehaviorFSM where
  current_state : State
  state_data : StateData
  state_entered_at : ℚ
  state_history : List (State × State × Event × ℚ)
deriving DecidableEq

/-- BehaviorFSM.TRANSITIONS: the state-transition dict of dicts, as a
lookup returning none for a pair with no entry. Every State is a key of
the outer dict. -/
def BehaviorFSM.TRANSITIONS : State → Event → Option State
  | .IDLE, .CONTEXT_CHANGED => some .OBSERVING
  | .IDLE, .INTENT_APPROVED => some .SUGGESTING
  | .IDLE, .ENTER_FOCUS_MODE => some .COOLDOWN_GLOBAL
  | .OBSERVING, .INTENT_APPROVED => some .SUGGESTING
  | .OBSERVING, .TIMEOUT => some .IDLE
  | .OBSERVING, .ENTER_FOCUS_MODE => some .COOLDOWN_GLOBAL
  | .SUGGESTING, .USER_DISMISS => some .SUPPRESSED
  | .SUGGESTING, .USER_ACTION => some .EXECUTING
  | .SUGGESTING, .TIMEOUT => some .IDLE
  | .SUGGESTING, .ENTER_FOCUS_MODE => some .COOLDOWN_GLOBAL
  | .EXECUTING, .TIMEOUT => some .IDLE
  | .EXECUTING, .USER_DISMISS => some .SUPPRESSED
  | .SUPPRESSED, .COOLDOWN_EXPIRED => some .IDLE
  | .COOLDOWN_GLOBAL, .EXIT_FOCUS_MODE => some .IDLE
  | _, _ => none

/-- BehaviorFSM construction (__init__, in IDLE at the given clock). -/
def BehaviorFSM.init (now : ℚ) : BehaviorFSM :=
  { current_state := .IDLE
    state_data := { state := .IDLE, entered_at := now }
    state_entered_at := now
    state_history := [] }

/-- BehaviorFSM._transition_to. -/
def BehaviorFSM.transition_to (fsm : BehaviorFSM) (next_state : State) (event : Event)
    (data : EventData) (now : ℚ) : BehaviorFSM :=
  { current_state := next_state
    state_entered_at := now
    state_data :=
      { state := next_state, entered_at := now
        intent := data.intent, context := data.context }
    state_history := fsm.state_history ++ [(fsm.current_state, next_state, event, now)] }

/-- BehaviorFSM.trigger_event. The source's guard on a state missing from
TRANSITIONS never fires (every State is a key); an event with no entry
returns false without touching the FSM. -/
def BehaviorFSM.trigger_event (fsm : BehaviorFSM) (event : Event) (data : EventData)
    (now : ℚ) : Bool × BehaviorFSM :=
  match BehaviorFSM.TRANSITIONS fsm.current_state event with
  | none => (false, fsm)
  | some next_state => (true, fsm.transition_to next_state event data now)

/-- BehaviorFSM.get_ui_output. The source's trailing default branch is
unreachable (the if-chain covers all six states). -/
def BehaviorFSM.get_ui_output (fsm : BehaviorFSM) : UIOutput :=
  match fsm.current_state with
  | .IDLE => { state := "idle", emotion := "neutral", visible := false }
  | .OBSERVING => { state := "observing", emotion := "curious", visible := true, bubble := none }
  | .SUGGESTING =>
    let message :=
      match fsm.state_data.intent with
      | some intent => intent.message
      | none => "Ada yang bisa kubantu?"
    { state := "suggesting", emotion := "helpful", visible := true
      bubble := some { text := message, actions := ["Ya", "Nanti", "Dismiss"] } }
  | .EXECUTING =>
    { state := "executing", emotion := "working", visible := true
      bubble := some { text := "Sedang diproses...", actions := [] } }
  | .SUPPRESSED => { state := "suppressed", emotion := "quiet", visible := false }
  | .COOLDOWN_GLOBAL => { state := "suppressed", emotion := "quiet", visible := false }

/-- BehaviorController.handle_intent_approved, acting on the controller's
FSM; also reports the events it fed to trigger_event. -/
def BehaviorController.handle_intent_approved (fsm : BehaviorFSM) (intent : Intent)
    (now : ℚ) : BehaviorFSM × List Event :=
  if fsm.current_state = .IDLE ∨ fsm.current_state = .OBSERVING then
    ((fsm.trigger_event .INTENT_APPROVED { intent := some intent } now).2, [.INTENT_APPROVED])
  else
    (fsm, [])

/-- Result of BehaviorController.process_decision: the returned UI output
(or none), the controller's FSM afterwards, and the events it fed to
trigger_event. -/
structure ProcessDecisionResult where
  output : Option UIOutput
  fsm : BehaviorFSM
  fired : List Event
deriving DecidableEq

/-- BehaviorController.process_decision. -/
def BehaviorController.process_decision (fsm : BehaviorFSM) (decision : DecisionResult)
    (now : ℚ) : ProcessDecisionResult :=
  match decision.approved, decision.intent with
  | true, some intent =>
    let stepped := BehaviorController.handle_intent_approved fsm intent now
    { output := some stepped.1.get_ui_output, fsm := stepped.1, fired := stepped.2 }
  | false, _ =>
    if hasSub "Cooldown".data decision.reason.data
        || hasSub "spam".data (lowerStr decision.reason).data then
      if fsm.current_state ≠ .SUPPRESSED ∧ fsm.current_state ≠ .COOLDOWN_GLOBAL then
        { output := none, fsm := (fsm.trigger_event .TIMEOUT {} now).2, fired := [.TIMEOUT] }
      else
        { output := none, fsm := fsm, fired := [] }
    else
      { output := none, fsm := fsm, fired := [] }
  | true, none => { output := none, fsm := fsm, fired := [] }

/-!  ## Intent proposer (ai_brain_v2.py)  -/

/-- The contexts sub-dict of the dummy-responses JSON; an absent list key
is the empty list (dict.get defaults). -/
structure DummyContexts where
  error_detected : List String := []
  long_idle : List String := []
deriving DecidableEq

/-- The moods sub-dict of the dummy-responses JSON. -/
structure DummyMoods where
  morning : List String := []
  afternoon : List String := []
  evening : List String := []
  night : List String := []
deriving DecidableEq

/-- The dummy-responses dictionary: the suggest_help pool plus the optional
contexts and moods sub-dicts (none = key absent). -/
structure DummyResponses where
  suggest_help : List String := []
  contexts : Option DummyContexts := none
  moods : Option DummyMoods := none
deriving DecidableEq

/-- DummyModePool._get_fallback_responses. -/
def DummyModePool.get_fallback_responses : DummyResponses :=
  { suggest_help :=
      ["Butuh bantuan?", "Mau aku bantu?", "Lagi stuck nih?",
       "Ada yang bisa ku bantu?", "Mau diskusi masalahnya?"] }

/-- DummyModePool state. The usage-count dict is a total function, absent
key = 0. The default responses model a pool built when the JSON file is
missing; a loaded file yields an arbitrary DummyResponses value. -/
structure DummyModePool where
  responses : DummyResponses := DummyModePool.get_fallback_responses
  last_message : Option String := none
  last_suggest_time : ℚ := 0
  usage_count : String → ℕ := fun _ => 0

/-- DummyModePool._select_pool. The source's early returns are flattened
into one if-chain; each guard also requires the candidate list non-empty,
as the source's inner truthiness checks do. The clock hour is a
parameter. -/
def DummyModePool.select_pool (pool : DummyModePool) (context : Option Context)
    (hour : ℕ) : List String :=
  match context with
  | none => pool.responses.suggest_help
  | some ctx =>
    let idle_time := ctx.idle_time
    let error_count := ctx.error_count
    if 0 < error_count ∧ pool.responses.contexts.isSome
        ∧ (pool.responses.contexts.getD {}).error_detected ≠ [] then
      (pool.responses.contexts.getD {}).error_detected
    else if 600 ≤ idle_time ∧ pool.responses.contexts.isSome
        ∧ (pool.responses.contexts.getD {}).long_idle ≠ [] then
      (pool.responses.contexts.getD {}).long_idle
    else
      match pool.responses.moods with
      | some moods =>
        let mood_messages :=
          if 5 ≤ hour ∧ hour < 12 then moods.morning
          else if 12 ≤ hour ∧ hour < 17 then moods.afternoon
          else if 17 ≤ hour ∧ hour < 22 then moods.evening
          else moods.night
        if mood_messages ≠ [] then mood_messages ++ pool.responses.suggest_help
        else pool.responses.suggest_help
      | none => pool.responses.suggest_help

/-- DummyModePool.get_message. The weighted random.choices draw is modelled
by the pick parameter (every weight 1/(usage+1) is positive, so every
candidate can be drawn); on an empty candidate list random.choices raises
IndexError before any tracking update. Returns the message (none models
the source's None on the 30 s dummy cooldown) and the updated pool. -/
def DummyModePool.get_message (pool : DummyModePool) (intent_type : IntentType)
    (context : Option Context) (now : ℚ) (hour : ℕ) (pick : ℕ) :
    PyResult (Option String) × DummyModePool :=
  if intent_type = IntentType.SUGGEST_HELP then
    if now - pool.last_suggest_time < 30 then
      (.ok none, pool)
    else
      let messages := pool.select_pool context hour
      let available := messages.filter (fun m => some m != pool.last_message)
      let available := if available.isEmpty then messages else available
      let available := sortByKey pool.usage_count available
      match available with
      | [] => (.exc "IndexError", pool)
      | m :: ms =>
        let msg := (m :: ms).get ⟨pick % (m :: ms).length, Nat.mod_lt pick (Nat.succ_pos ms.length)⟩
        (.ok (some msg),
         { pool with
           last_message := some msg
           last_suggest_time := now
           usage_count := fun s =>
             if s = msg then pool.usage_count s + 1 else pool.usage_count s })
  else
    (.ok (some ""), pool)

/-- DummyModePool.get_confidence. The random.uniform(-0.03, 0.03) draw is
the noise parameter. -/
def DummyModePool.get_confidence (_pool : DummyModePool) (context : Context)
    (noise : ℚ) : ℚ :=
  let idle_time := context.idle_time
  let error_count := context.error_count
  let confidence : ℚ := 0.70
  let confidence :=
    if 300 ≤ idle_time then confidence + 0.10
    else if 180 ≤ idle_time then confidence + 0.05
    else confidence
  let confidence := if 0 < error_count then confidence + 0.05 else confidence
  let confidence := confidence + noise
  min 0.90 (max 0.70 confidence)

/-- The key/value record parsed from the LLM JSON response; field defaults
are the dict.get defaults of the source. -/
structure OllamaParsed where
  intent : String := "none"
  confidence : ℚ := 0.5
  message : String := ""
  reasoning : String := ""
deriving DecidableEq

/-- OllamaClient.generate_intent after transport and JSON decoding:
response = none models every failure path that returns None (client
unavailable, transport error, JSON parse failure). remind and info are
locked out, so the parsed kind is suggest_help or none. -/
def OllamaClient.generate_intent (available : Bool) (response : Option OllamaParsed) :
    Option Intent :=
  if available = false then none
  else
    match response with
    | none => none
    | some intent_data =>
      let intent_str := lowerStr intent_data.intent
      let intent_type :=
        if hasSub "suggest_help".data intent_str.data || hasSub "help".data intent_str.data
        then IntentType.SUGGEST_HELP
        else IntentType.NONE
      some { type := intent_type
             confidence := intent_data.confidence
             message := intent_data.message
             reasoning := "" }

/-- AIBrainV2._generate_with_dummy. The snapshot always carries the
active_app key, so context.get('active_app', '') yields the stored value:
when that value is None the source's .lower() raises AttributeError
before the rule is tested; a string is lower-cased. -/
def AIBrainV2.generate_with_dummy (pool : DummyModePool) (context : Context)
    (now : ℚ) (hour : ℕ) (pick : ℕ) (noise : ℚ) : PyResult Intent × DummyModePool :=
  let idle_time := context.idle_time
  match context.active_app with
  | none => (.exc "AttributeError", pool)
  | some app =>
  let active_app := lowerStr app
  if 60 ≤ idle_time ∧
      (hasSub "code".data active_app.data || hasSub "studio".data active_app.data
        || hasSub "python".data active_app.data) = true then
    match pool.get_message IntentType.SUGGEST_HELP (some context) now hour pick with
    | (.exc e, pool') => (.exc e, pool')
    | (.ok (some message), pool') =>
      if message ≠ "" then
        let confidence := pool'.get_confidence context noise
        (.ok { type := IntentType.SUGGEST_HELP, confidence := confidence
               message := message, reasoning := "" }, pool')
      else
        (.ok { type := IntentType.NONE, confidence := 0.0, message := "", reasoning := "" },
         pool')
    | (.ok none, pool') =>
      (.ok { type := IntentType.NONE, confidence := 0.0, message := "", reasoning := "" },
       pool')
  else
    (.ok { type := IntentType.NONE, confidence := 0.0, message := "", reasoning := "" }, pool)

/-- AIBrainV2.generate_intent: try Ollama when available, fall back to the
dummy pool. The health-check retry after an Ollama failure touches only
the client and is dropped. -/
def AIBrainV2.generate_intent (ollama_available : Bool) (ollama_response : Option OllamaParsed)
    (pool : DummyModePool) (context : Context) (now : ℚ) (hour : ℕ) (pick : ℕ) (noise : ℚ) :
    PyResult Intent × DummyModePool :=
  if ollama_available then
    match OllamaClient.generate_intent ollama_available ollama_response with
    | some intent => (.ok intent, pool)
    | none => AIBrainV2.generate_with_dummy pool context now hour pick noise
  else
    AIBrainV2.generate_with_dummy pool context now hour pick noise

/-!  ## Orchestrator tick (main_v2.py)  -/

/-- What one iteration of ORBITOrchestrator._main_loop did: the intents it
passed to DecisionEngine.evaluate, the decision, and the updated layer
states. An exception anywhere in the tick is caught by the loop's
try/except; the stages after the raise do not run. -/
structure MainTickResult where
  evalCalls : List Intent
  decision : Option DecisionResult
  engine : DecisionEngine
  pool : DummyModePool
  fsm : BehaviorFSM
  ui : Option UIOutput

/-- One iteration of ORBITOrchestrator._main_loop: generate an intent from
the snapshot, evaluate it (time_since_generation keeps its 0.0 default),
and hand the decision to BehaviorController.process_decision. The evaluate
call is unconditional: the loop has no guard on the intent kind. -/
def ORBITOrchestrator.main_loop_iteration (engine : DecisionEngine) (fsm : BehaviorFSM)
    (pool : DummyModePool) (context : Context) (ollama_available : Bool)
    (ollama_response : Option OllamaParsed) (now : ℚ) (hour : ℕ) (pick : ℕ) (noise : ℚ) :
    MainTickResult :=
  match AIBrainV2.generate_intent ollama_available ollama_response pool context now hour pick noise with
  | (.exc _, pool') =>
    { evalCalls := [], decision := none, engine := engine, pool := pool', fsm := fsm, ui := none }
  | (.ok intent, pool') =>
    let evaluated := engine.evaluate intent context 0.0 now
    let processed := BehaviorController.process_decision fsm evaluated.1 now
    { evalCalls := [intent], decision := some evaluated.1, engine := evaluated.2
      pool := pool', fsm := processed.fsm, ui := processed.output }

/-!  ## Theorems  -/

/-- The transition table as the specification lists it (section 4.4):
a second, spec-side definition to compare against the embedded
BehaviorFSM.TRANSITIONS. -/
def specTransitionTable : State → Event → Option State
  | .IDLE, .CONTEXT_CHANGED => some .OBSERVING
  | .IDLE, .INTENT_APPROVED => some .SUGGESTING
  | .IDLE, .ENTER_FOCUS_MODE => some .COOLDOWN_GLOBAL
  | .OBSERVING, .INTENT_APPROVED => some .SUGGESTING
  | .OBSERVING, .TIMEOUT => some .IDLE
  | .OBSERVING, .ENTER_FOCUS_MODE => some .COOLDOWN_GLOBAL
  | .SUGGESTING, .USER_DISMISS => some .SUPPRESSED
  | .SUGGESTING, .USER_ACTION => some .EXECUTING
  | .SUGGESTING, .TIMEOUT => some .IDLE
  | .SUGGESTING, .ENTER_FOCUS_MODE => some .COOLDOWN_GLOBAL
  | .EXECUTING, .USER_DISMISS => some .SUPPRESSED
  | .EXECUTING, .TIMEOUT => some .IDLE
  | .SUPPRESSED, .COOLDOWN_EXPIRED => some .IDLE
  | .COOLDOWN_GLOBAL, .EXIT_FOCUS_MODE => some .IDLE
  | _, _ => none

/-- The embedded transition map agrees with the spec's table entry by
entry. -/
theorem transitions_eq_specTable (s : State) (e : Event) :
    BehaviorFSM.TRANSITIONS s e = specTransitionTable s e := by
  cases s <;> cases e <;> rfl

/-- C2: trigger_event moves the state only to the successor the spec's
section 4.4 table lists for the current state and event, and for a pair
with no table entry it returns false and leaves the whole FSM (current
state, entry time, state data, history) unchanged. -/
theorem C2_fsm_transitions_follow_table (fsm : BehaviorFSM) (event : Event)
    (data : EventData) (now : ℚ) :
    ((fsm.trigger_event event data now).1 = true →
      specTransitionTable fsm.current_state event
        = some (fsm.trigger_event event data now).2.current_state)
    ∧ (specTransitionTable fsm.current_state event = none →
      fsm.trigger_event event data now = (false, fsm)) := by
  unfold BehaviorFSM.trigger_event
  rw [transitions_eq_specTable]
  cases h : specTransitionTable fsm.current_state event with
  | none => simp
  | some s' => simp [BehaviorFSM.transition_to]

/-- Witness for C2 at concrete inputs: from IDLE, CONTEXT_CHANGED lands on
the table successor, and USER_DISMISS (no table entry) is a no-op. -/
theorem C2_fsm_transitions_follow_table_witness :
    specTransitionTable (BehaviorFSM.init 0).current_state Event.CONTEXT_CHANGED
      = some ((BehaviorFSM.init 0).trigger_event Event.CONTEXT_CHANGED {} 1).2.current_state
    ∧ (BehaviorFSM.init 0).trigger_event Event.USER_DISMISS {} 1 = (false, BehaviorFSM.init 0) :=
  ⟨(C2_fsm_transitions_follow_table (BehaviorFSM.init 0) Event.CONTEXT_CHANGED {} 1).1
      (by decide),
   (C2_fsm_transitions_follow_table (BehaviorFSM.init 0) Event.USER_DISMISS {} 1).2
      (by decide)⟩

/-- The dismissal step of apply_decay subtracts 0.1 per recorded dismissal
also when the count is zero (subtracting nothing). -/
theorem decay_dismiss_step (c : ℚ) (n : ℕ) :
    (if 0 < n then c - 0.1 * (n : ℚ) else c) = c - 0.1 * (n : ℚ) := by
  split_ifs with h
  · rfl
  · have hn : n = 0 := Nat.eq_zero_of_not_pos h
    subst hn
    norm_num

/-- The decayed confidence as the specification's formula states it:
confidence minus the dismissal, context and time deltas, clamped to
[0, 1]. -/
def specDecayedConfidence (cd : ConfidenceDecay) (intent : Intent) (context : Context)
    (age_seconds : ℚ) : ℚ :=
  let dismissDelta : ℚ := 0.10 * (cd.dismiss_count intent.type : ℚ)
  let contextDelta : ℚ :=
    match cd.last_context with
    | some prev =>
      if prev.active_app ≠ context.active_app ∨ prev.is_idle ≠ context.is_idle then 0.15 else 0
    | none => 0
  let timeDelta : ℚ :=
    if 60 < age_seconds then min 0.20 (age_seconds / 300 * 0.20) else 0
  max 0 (min 1 (intent.confidence - dismissDelta - contextDelta - timeDelta))

/-- C4: the decayed confidence the gate computes equals the spec formula:
confidence − 0.10·dismiss_count − (0.15 on a stored differing snapshot)
− (min(0.20, age/300·0.20) when age > 60), clamped to [0, 1]; no stored
snapshot means no context delta, and age ≤ 60 means no time delta. -/
theorem C4_decay_equals_spec_formula (cd : ConfidenceDecay) (intent : Intent)
    (context : Context) (age_seconds : ℚ) :
    (cd.apply_decay intent context age_seconds).1
      = specDecayedConfidence cd intent context age_seconds := by
  unfold ConfidenceDecay.apply_decay specDecayedConfidence
    ConfidenceDecay.context_changed_significantly
  rw [show (0.10 : ℚ) = 0.1 from by norm_num, show (0.20 : ℚ) = 0.2 from by norm_num]
  cases hlc : cd.last_context with
  | none =>
    simp only [hlc, Option.isSome_none, Bool.false_eq_true, if_false, decay_dismiss_step]
    split_ifs <;> exact congrArg (max 0) (congrArg (min 1) (by ring))
  | some prev =>
    simp only [hlc, Option.isSome_some, if_true, decay_dismiss_step,
      Bool.or_eq_true, bne_iff_ne]
    split_ifs <;> exact congrArg (max 0) (congrArg (min 1) (by ring))

/-- C3: the reasoning text never reaches a UI update. Every intent leaving
the proposer, on the LLM path and on the fallback path, carries an empty
reasoning field; and get_ui_output cannot distinguish two held intents
that differ only in reasoning, so no field of the UI output depends on
it. -/
theorem C3_reasoning_never_reaches_ui :
    (∀ (available : Bool) (response : Option OllamaParsed) (i : Intent),
        OllamaClient.generate_intent available response = some i → i.reasoning = "")
    ∧ (∀ (pool pool₂ : DummyModePool) (context : Context) (now : ℚ) (hour pick : ℕ)
        (noise : ℚ) (i : Intent),
        AIBrainV2.generate_with_dummy pool context now hour pick noise = (.ok i, pool₂) →
        i.reasoning = "")
    ∧ (∀ (fsm : BehaviorFSM) (i₁ i₂ : Intent),
        i₁.type = i₂.type → i₁.confidence = i₂.confidence → i₁.message = i₂.message →
        BehaviorFSM.get_ui_output
            { fsm with state_data := { fsm.state_data with intent := some i₁ } }
          = BehaviorFSM.get_ui_output
            { fsm with state_data := { fsm.state_data with intent := some i₂ } }) := by
  refine ⟨?_, ?_, ?_⟩
  · intro available response i h
    unfold OllamaClient.generate_intent at h
    split_ifs at h
    cases response with
    | none => exact Option.noConfusion h
    | some intent_data =>
      simp only [Option.some.injEq] at h
      subst h
      rfl
  · intro pool pool₂ context now hour pick noise i h
    unfold AIBrainV2.generate_with_dummy at h
    simp only [ne_eq] at h
    rcases hap : context.active_app with _ | app
    · rw [hap] at h
      simp at h
    rw [hap] at h
    dsimp only at h
    split_ifs at h
    · rcases hm : pool.get_message IntentType.SUGGEST_HELP (some context) now hour pick
        with ⟨r, p₂⟩
      rw [hm] at h
      cases r with
      | exc e => simp at h
      | ok mo =>
        cases mo with
        | some m =>
          dsimp only at h
          split_ifs at h <;>
            · simp only [Prod.mk.injEq, PyResult.ok.injEq] at h
              rw [← h.1]
        | none =>
          dsimp only at h
          simp only [Prod.mk.injEq, PyResult.ok.injEq] at h
          rw [← h.1]
    · simp only [Prod.mk.injEq, PyResult.ok.injEq] at h
      rw [← h.1]
  · intro fsm i₁ i₂ ht hc hm
    unfold BehaviorFSM.get_ui_output
    cases hs : fsm.current_state <;> simp [hs, hm]

/-- An intent carrying a non-empty internal reasoning, and the same intent
with the reasoning stripped. -/
def C3intentA : Intent :=
  { type := IntentType.SUGGEST_HELP, confidence := 0.8,
    message := "Butuh bantuan?", reasoning := "user idle in editor" }

/-- C3intentA with the reasoning field cleared. -/
def C3intentB : Intent := { C3intentA with reasoning := "" }

/-- An FSM holding the given intent in its state data. -/
def C3fsmWith (i : Intent) : BehaviorFSM :=
  { BehaviorFSM.init 0 with
    state_data := { (BehaviorFSM.init 0).state_data with intent := some i } }

/-- A concrete parsed LLM response carrying a reasoning text. -/
def C3parsed : OllamaParsed :=
  { intent := "suggest_help", confidence := 0.9, message := "m",
    reasoning := "idle five minutes in a coding app" }

/-- The intent the LLM path builds from C3parsed. -/
def C3llmIntent : Intent :=
  { type := IntentType.SUGGEST_HELP, confidence := 0.9, message := "m", reasoning := "" }

/-- Witness for C3 at concrete inputs: an FSM holding an intent with a
non-empty reasoning shows the same UI update as one holding the
reasoning-stripped intent, and a concrete LLM response yields an empty
reasoning field. -/
theorem C3_reasoning_never_reaches_ui_witness :
    BehaviorFSM.get_ui_output (C3fsmWith C3intentA)
      = BehaviorFSM.get_ui_output (C3fsmWith C3intentB)
    ∧ C3llmIntent.reasoning = "" :=
  ⟨C3_reasoning_never_reaches_ui.2.2 (BehaviorFSM.init 0) C3intentA C3intentB rfl rfl rfl,
   C3_reasoning_never_reaches_ui.1 true (some C3parsed) C3llmIntent
     (by with_unfolding_all decide)⟩

/-- C10: process_decision returns a UI update only for an approved
decision; a rejection whose reason contains Cooldown or (case-folded)
spam fires TIMEOUT whenever the FSM is not SUPPRESSED or COOLDOWN_GLOBAL,
and from OBSERVING or SUGGESTING that TIMEOUT lands the FSM in IDLE. -/
theorem C10_process_decision_rejection_timeout (fsm : BehaviorFSM)
    (decision : DecisionResult) (now : ℚ) :
    ((BehaviorController.process_decision fsm decision now).output.isSome = true →
      decision.approved = true)
    ∧ (decision.approved = false →
      (hasSub "Cooldown".data decision.reason.data
        || hasSub "spam".data (lowerStr decision.reason).data) = true →
      ¬(fsm.current_state = State.SUPPRESSED ∨ fsm.current_state = State.COOLDOWN_GLOBAL) →
      (BehaviorController.process_decision fsm decision now).fired = [Event.TIMEOUT])
    ∧ (decision.approved = false →
      (hasSub "Cooldown".data decision.reason.data
        || hasSub "spam".data (lowerStr decision.reason).data) = true →
      (fsm.current_state = State.OBSERVING ∨ fsm.current_state = State.SUGGESTING) →
      (BehaviorController.process_decision fsm decision now).fsm.current_state
        = State.IDLE) := by
  unfold BehaviorController.process_decision
  cases happ : decision.approved with
  | true =>
    cases hint : decision.intent with
    | some i =>
      exact ⟨fun _ => rfl, fun hf => Bool.noConfusion hf, fun hf => Bool.noConfusion hf⟩
    | none =>
      exact ⟨fun hs => Bool.noConfusion hs, fun hf => Bool.noConfusion hf,
        fun hf => Bool.noConfusion hf⟩
  | false =>
    refine ⟨?_, ?_, ?_⟩
    · intro hs
      exfalso
      revert hs
      split_ifs <;> simp
    · intro _ hreason hstate
      have hc : fsm.current_state ≠ State.SUPPRESSED
          ∧ fsm.current_state ≠ State.COOLDOWN_GLOBAL := by
        push_neg at hstate
        exact hstate
      rw [if_pos hreason, if_pos hc]
    · intro _ hreason hstate
      have hc : fsm.current_state ≠ State.SUPPRESSED
          ∧ fsm.current_state ≠ State.COOLDOWN_GLOBAL := by
        rcases hstate with h | h <;> rw [h] <;>
          exact ⟨fun hx => State.noConfusion hx, fun hx => State.noConfusion hx⟩
      rw [if_pos hreason, if_pos hc]
      rcases hstate with h | h <;>
        simp [BehaviorFSM.trigger_event, BehaviorFSM.TRANSITIONS,
          BehaviorFSM.transition_to, h]

/-- Witness input shared by the decision-gate witnesses: a confident
suggest_help intent. -/
def sampleIntent : Intent :=
  { type := IntentType.SUGGEST_HELP, confidence := 1, message := "Butuh bantuan?" }

/-- Witness input: a zero-confidence intent (rejected by the threshold). -/
def sampleLowIntent : Intent :=
  { type := IntentType.SUGGEST_HELP, confidence := 0, message := "Butuh bantuan?" }

/-- Witness input: an intent at exactly the 0.7 threshold. -/
def sampleThresholdIntent : Intent :=
  { type := IntentType.SUGGEST_HELP, confidence := 0.7, message := "Butuh bantuan?" }

/-- Witness input: an empty context snapshot. -/
def sampleContext : Context := {}

set_option maxHeartbeats 1000000 in
/-- C1: after an approving evaluate records the popup, the number of
recorded popup timestamps lying in the rolling hour (now − 3600, now] is
at most max_popups_per_hour — for an arbitrary prior gate state, so for
every call sequence in which popups are recorded only via approvals. -/
theorem C1_spam_budget_after_record (de : DecisionEngine) (intent : Intent)
    (context : Context) (t now : ℚ)
    (happ : (de.evaluate intent context t now).1.approved = true) :
    ((de.evaluate intent context t now).2.spam_filter.popup_history.countP
        (fun x => decide (now - 3600 < x) && decide (x ≤ now)))
      ≤ (de.evaluate intent context t now).2.spam_filter.max_popups_per_hour := by
  simp only [DecisionEngine.evaluate, SpamFilter.is_spam, SpamFilter.cleanup_old_history,
    SpamFilter.record_popup] at happ ⊢
  split_ifs at happ ⊢ with h1 h2 h3 h4 <;> simp_all
  have hlen := List.countP_le_length
    (p := fun x => decide (now - 3600 < x) && decide (x ≤ now))
    (l := List.filter (fun x => decide (now - 3600 < x)) de.spam_filter.popup_history)
  omega

/-- Witness for C1: a fresh gate approves a confident intent at time 1000
and the rolling-hour popup count stays within the budget. -/
theorem C1_spam_budget_after_record_witness :
    ((({} : DecisionEngine).evaluate sampleIntent sampleContext 0 1000).2.spam_filter.popup_history.countP
        (fun x => decide ((1000 : ℚ) - 3600 < x) && decide (x ≤ (1000 : ℚ))))
      ≤ (({} : DecisionEngine).evaluate sampleIntent sampleContext 0 1000).2.spam_filter.max_popups_per_hour :=
  C1_spam_budget_after_record {} sampleIntent sampleContext 0 1000
    (by with_unfolding_all decide)

set_option maxHeartbeats 1600000 in
/-- C5: an approving evaluate records the popup in both the cooldown
ledger and the spam ledger before returning; a rejecting evaluate leaves
the cooldown ledger untouched and adds nothing to the spam ledger (it can
only trim expired entries); and in every case the confidence decay is
applied and the stored previous snapshot becomes the current context. -/
theorem C5_evaluate_records_iff_approved (de : DecisionEngine) (intent : Intent)
    (context : Context) (t now : ℚ) :
    ((de.evaluate intent context t now).1.approved = true →
        (de.evaluate intent context t now).2.cooldown_manager.last_popup_time = some now
        ∧ (de.evaluate intent context t now).2.cooldown_manager.last_intent_time intent.type
            = some now
        ∧ now ∈ (de.evaluate intent context t now).2.spam_filter.popup_history
        ∧ now ∈ (de.evaluate intent context t now).2.spam_filter.intent_history intent.type)
    ∧ ((de.evaluate intent context t now).1.approved = false →
        (de.evaluate intent context t now).2.cooldown_manager = de.cooldown_manager
        ∧ List.Sublist (de.evaluate intent context t now).2.spam_filter.popup_history
            de.spam_filter.popup_history
        ∧ ∀ ty, List.Sublist ((de.evaluate intent context t now).2.spam_filter.intent_history ty)
            (de.spam_filter.intent_history ty))
    ∧ (de.evaluate intent context t now).2.confidence_decay
        = (de.confidence_decay.apply_decay intent context t).2
    ∧ (de.evaluate intent context t now).2.confidence_decay.last_context = some context := by
  refine ⟨?_, ?_, ?_, ?_⟩
  · intro happ
    simp only [DecisionEngine.evaluate, SpamFilter.is_spam, SpamFilter.cleanup_old_history,
      SpamFilter.record_popup, CooldownManager.record_popup] at happ ⊢
    split_ifs at happ ⊢ <;> simp_all
  · intro hrej
    simp only [DecisionEngine.evaluate, SpamFilter.is_spam, SpamFilter.cleanup_old_history,
      SpamFilter.record_popup, CooldownManager.record_popup] at hrej ⊢
    split_ifs at hrej ⊢ <;> simp_all [List.filter_sublist, List.Sublist.refl]
  · simp only [DecisionEngine.evaluate]
    split_ifs <;> rfl
  · simp only [DecisionEngine.evaluate, ConfidenceDecay.apply_decay]
    split_ifs <;> rfl

/-- Witness for C5: on a fresh gate an approved intent stamps the
cooldown ledger, and a zero-confidence rejection leaves the spam ledger a
sublist of what it was. -/
theorem C5_evaluate_records_iff_approved_witness :
    (({} : DecisionEngine).evaluate sampleIntent sampleContext 0 1000).2.cooldown_manager.last_popup_time
        = some 1000
    ∧ List.Sublist
        ((({} : DecisionEngine).evaluate sampleLowIntent sampleContext 0 1000).2.spam_filter.popup_history)
        (({} : DecisionEngine).spam_filter.popup_history) :=
  ⟨((C5_evaluate_records_iff_approved {} sampleIntent sampleContext 0 1000).1
      (by with_unfolding_all decide)).1,
   ((C5_evaluate_records_iff_approved {} sampleLowIntent sampleContext 0 1000).2.1
      (by with_unfolding_all decide)).2.1⟩

set_option maxHeartbeats 1000000 in
/-- C7: after reset(), the first evaluate of a fresh intent
(age_seconds = 0) with confidence at least 0.7 — the threshold itself
included — is approved, for any gate whose popup budget is positive (the
constructed gate's budget is 100). -/
theorem C7_reset_then_fresh_confident_approved (de : DecisionEngine) (intent : Intent)
    (context : Context) (now : ℚ)
    (hmax : 0 < de.spam_filter.max_popups_per_hour)
    (hconf : 0.7 ≤ intent.confidence) :
    ((de.reset).evaluate intent context 0 now).1.approved = true := by
  have h07 : CONFIDENCE_THRESHOLD ≤ max 0 (min 1 intent.confidence) := by
    unfold CONFIDENCE_THRESHOLD
    exact le_max_of_le_right (le_min (by norm_num) hconf)
  have hdec : (de.confidence_decay.reset).apply_decay intent context 0
      = (max 0 (min 1 intent.confidence),
         { dismiss_count := fun _ => 0, last_context := some context }) := by
    norm_num [ConfidenceDecay.apply_decay, ConfidenceDecay.reset,
      ConfidenceDecay.context_changed_significantly]
  have hcan : (de.cooldown_manager.reset).can_show_intent intent.type now
      = (true, "Cooldown passed") := by
    simp [CooldownManager.can_show_intent, CooldownManager.reset, truthy]
  have hspam1 : ((de.spam_filter.reset).is_spam intent.type now).1.1 = false := by
    unfold SpamFilter.is_spam SpamFilter.reset SpamFilter.cleanup_old_history
    simp only [List.filter_nil, List.length_nil]
    rw [if_neg (by omega)]
    simp
  simp only [DecisionEngine.evaluate, DecisionEngine.reset, hdec, hcan, hspam1]
  rw [if_neg (not_lt.mpr h07)]
  simp

/-- Witness for C7: a reset fresh gate approves an intent of confidence
exactly 0.7 on the first evaluate. -/
theorem C7_reset_then_fresh_confident_approved_witness :
    ((({} : DecisionEngine).reset).evaluate sampleThresholdIntent sampleContext 0 1000).1.approved
      = true :=
  C7_reset_then_fresh_confident_approved {} sampleThresholdIntent sampleContext 1000
    (by decide) (by with_unfolding_all decide)

/-- Witness inputs for C10: an FSM sitting in SUGGESTING and a rejection
whose reason names the cooldown. -/
def C10fsm : BehaviorFSM :=
  { BehaviorFSM.init 0 with current_state := State.SUGGESTING }

/-- A cooldown rejection as the gate words it. -/
def C10decision : DecisionResult :=
  { approved := false, intent := none,
    reason := "Cooldown: Global cooldown active (wait 3s)" }

/-- Witness for C10: the cooldown rejection fires TIMEOUT from SUGGESTING
and lands the FSM in IDLE. -/
theorem C10_process_decision_rejection_timeout_witness :
    (BehaviorController.process_decision C10fsm C10decision 5).fired = [Event.TIMEOUT]
    ∧ (BehaviorController.process_decision C10fsm C10decision 5).fsm.current_state
        = State.IDLE :=
  ⟨(C10_process_decision_rejection_timeout C10fsm C10decision 5).2.1 rfl (by decide)
      (by decide),
   (C10_process_decision_rejection_timeout C10fsm C10decision 5).2.2 rfl (by decide)
      (Or.inr rfl)⟩

/-- A fresh dummy pool holding the fallback responses. -/
def C6pool : DummyModePool := {}

/-- A coding-app context idle for 100 s — below the spec's 300 s rule
threshold but above the code's 60 s one. -/
def C6context : Context := { active_app := some "Code.exe", idle_time := 100 }

/-- The suggest_help intent the fallback emits on C6context: confidence
0.70 (no idle or error boost, zero noise), first pool message. -/
def C6intent : Intent :=
  { type := IntentType.SUGGEST_HELP, confidence := 0.7,
    message := "Butuh bantuan?", reasoning := "" }

/-- Counterexample for C6: at idle_time = 100 < 300 the claim's otherwise
branch demands an Intent of kind none with confidence 0 and empty
message, but the fallback emits suggest_help (the code's rule threshold
is 60 s, not 300 s). -/
theorem C6_fallback_rule_counterexample :
    C6context.idle_time < 300
    ∧ (AIBrainV2.generate_with_dummy C6pool C6context 1000 9 0 0).1 = PyResult.ok C6intent
    ∧ C6intent.type ≠ IntentType.NONE := by
  with_unfolding_all decide

set_option maxHeartbeats 1000000 in
/-- C6 amended: the fallback rule fires at idle ≥ 60 s (the v0.2 testing
threshold) in a coding app, and only when the variety pool returns a
non-empty message (its 30 s minimum interval elapsed): then the intent is
suggest_help with confidence 0.70 + (0.10 if idle ≥ 300 else 0.05 if
idle ≥ 180 else 0) + (0.05 if errors > 0 else 0) + noise, clamped to
[0.70, 0.90] — so within [0.70, 0.90] whatever the noise; otherwise, and
when message selection yields None or an empty string, the intent is
kind none with confidence 0 and empty message; and on a snapshot whose
active_app value is None the proposer raises AttributeError from the
lower() call before any rule is tested, emitting no intent at all. -/
theorem C6_fallback_rule_amended (pool : DummyModePool) (context : Context) (now : ℚ)
    (hour pick : ℕ) (noise : ℚ) :
    (∀ app : String, context.active_app = some app →
      60 ≤ context.idle_time →
      (hasSub "code".data (lowerStr app).data
        || hasSub "studio".data (lowerStr app).data
        || hasSub "python".data (lowerStr app).data) = true →
      ∀ m : String,
        (pool.get_message IntentType.SUGGEST_HELP (some context) now hour pick).1
          = PyResult.ok (some m) →
        m ≠ "" →
        (AIBrainV2.generate_with_dummy pool context now hour pick noise).1
          = PyResult.ok
              { type := IntentType.SUGGEST_HELP
                confidence := min 0.90 (max 0.70 (0.70
                  + (if 300 ≤ context.idle_time then 0.10
                     else if 180 ≤ context.idle_time then 0.05 else 0)
                  + (if 0 < context.error_count then 0.05 else 0) + noise))
                message := m, reasoning := "" })
    ∧ (∀ i : Intent,
        (AIBrainV2.generate_with_dummy pool context now hour pick noise).1 = PyResult.ok i →
        i.type = IntentType.SUGGEST_HELP →
        0.70 ≤ i.confidence ∧ i.confidence ≤ 0.90)
    ∧ (∀ app : String, context.active_app = some app →
      ¬(60 ≤ context.idle_time
          ∧ (hasSub "code".data (lowerStr app).data
            || hasSub "studio".data (lowerStr app).data
            || hasSub "python".data (lowerStr app).data) = true) →
      (AIBrainV2.generate_with_dummy pool context now hour pick noise).1
        = PyResult.ok { type := IntentType.NONE, confidence := 0.0, message := "",
                        reasoning := "" })
    ∧ (∀ app : String, context.active_app = some app →
      ((pool.get_message IntentType.SUGGEST_HELP (some context) now hour pick).1
          = PyResult.ok none
        ∨ (pool.get_message IntentType.SUGGEST_HELP (some context) now hour pick).1
          = PyResult.ok (some "")) →
      (AIBrainV2.generate_with_dummy pool context now hour pick noise).1
        = PyResult.ok { type := IntentType.NONE, confidence := 0.0, message := "",
                        reasoning := "" })
    ∧ (context.active_app = none →
      (AIBrainV2.generate_with_dummy pool context now hour pick noise).1
        = PyResult.exc "AttributeError") := by
  refine ⟨?_, ?_, ?_, ?_, ?_⟩
  · intro app hap hidle happ m hm1 hmne
    simp only [AIBrainV2.generate_with_dummy]
    rw [hap]
    dsimp only
    rw [if_pos ⟨hidle, happ⟩]
    rcases hg : pool.get_message IntentType.SUGGEST_HELP (some context) now hour pick
      with ⟨r, p₂⟩
    rw [hg] at hm1
    simp only at hm1
    subst hm1
    dsimp only
    rw [if_pos hmne]
    simp only [DummyModePool.get_confidence, PyResult.ok.injEq, Intent.mk.injEq]
    refine ⟨trivial, ?_, trivial, trivial⟩
    exact congrArg (fun x => min 0.90 (max 0.70 x)) (by split_ifs <;> ring)
  · intro i hm1 htype
    simp only [AIBrainV2.generate_with_dummy] at hm1
    rcases hap : context.active_app with _ | app
    · rw [hap] at hm1
      simp at hm1
    rw [hap] at hm1
    dsimp only at hm1
    split_ifs at hm1
    · rcases hg : pool.get_message IntentType.SUGGEST_HELP (some context) now hour pick
        with ⟨r, p₂⟩
      rw [hg] at hm1
      cases r with
      | exc e => exact PyResult.noConfusion hm1
      | ok mo =>
        cases mo with
        | some m =>
          dsimp only at hm1
          split_ifs at hm1
          · simp only [PyResult.ok.injEq] at hm1
            subst hm1
            exact ⟨le_min (by norm_num) (le_max_left _ _), min_le_left _ _⟩
          · simp only [PyResult.ok.injEq] at hm1
            subst hm1
            exact absurd htype (by simp)
        | none =>
          dsimp only at hm1
          simp only [PyResult.ok.injEq] at hm1
          subst hm1
          exact absurd htype (by simp)
    · simp only [PyResult.ok.injEq] at hm1
      subst hm1
      exact absurd htype (by simp)
  · intro app hap hnot
    simp only [AIBrainV2.generate_with_dummy]
    rw [hap]
    dsimp only
    rw [if_neg hnot]
  · intro app hap hor
    simp only [AIBrainV2.generate_with_dummy]
    rw [hap]
    dsimp only
    split_ifs with hfire
    · rcases hg : pool.get_message IntentType.SUGGEST_HELP (some context) now hour pick
        with ⟨r, p₂⟩
      rw [hg] at hor
      rcases hor with h | h <;> simp only at h <;> subst h <;> simp
    · rfl
  · intro hap
    simp only [AIBrainV2.generate_with_dummy]
    rw [hap]

/-- A snapshot carrying active_app = None, as the aggregator emits when
the window monitor finds no foreground window. -/
def C6noAppContext : Context := { active_app := none, idle_time := 400 }

/-- Witness for C6 amended: on the concrete 100 s idle coding context the
rule fires, the pool returns its first message, and the emitted intent is
suggest_help with the spec formula confidence; and on a None-app snapshot
the proposer raises AttributeError. -/
theorem C6_fallback_rule_amended_witness :
    (AIBrainV2.generate_with_dummy C6pool C6context 1000 9 0 0).1
      = PyResult.ok
          { type := IntentType.SUGGEST_HELP
            confidence := min 0.90 (max 0.70 (0.70
              + (if 300 ≤ C6context.idle_time then 0.10
                 else if 180 ≤ C6context.idle_time then 0.05 else 0)
              + (if 0 < C6context.error_count then 0.05 else 0) + 0))
            message := "Butuh bantuan?", reasoning := "" }
    ∧ (AIBrainV2.generate_with_dummy C6pool C6noAppContext 1000 9 0 0).1
      = PyResult.exc "AttributeError" :=
  ⟨(C6_fallback_rule_amended C6pool C6context 1000 9 0 0).1 "Code.exe" rfl
      (by with_unfolding_all decide) (by with_unfolding_all decide) "Butuh bantuan?"
      (by with_unfolding_all decide) (by decide),
   (C6_fallback_rule_amended C6pool C6noAppContext 1000 9 0 0).2.2.2.2 rfl⟩

/-- A dummy pool loaded from a responses file with an empty suggest_help
list and no contexts or moods sections. -/
def C9pool : DummyModePool := { responses := { suggest_help := [] } }

/-- A coding-app context idle for 400 s: the fallback rule fires and no
context pool overrides the empty suggest_help pool. -/
def C9context : Context := { active_app := some "Code.exe", idle_time := 400 }

/-- C9: with an empty variety pool the message selection raises
IndexError (random.choices over an empty population) and the proposer
propagates it instead of returning an Intent of kind none as the spec
requires. -/
theorem C9_empty_pool_selection_raises :
    (AIBrainV2.generate_with_dummy C9pool C9context 1000 9 0 0).1
      = PyResult.exc "IndexError" := by
  with_unfolding_all decide

/-- A non-interesting context: browser in focus, no idle time. -/
def C8context : Context := { active_app := some "chrome.exe", idle_time := 0 }

/-- The kind-none intent the dummy path emits on a non-interesting
context. -/
def C8noneIntent : Intent :=
  { type := IntentType.NONE, confidence := 0.0, message := "", reasoning := "" }

/-- Counterexample for C8: on a tick whose proposed intent has kind none,
the v2 orchestrator still passes it to evaluate — the evaluate-call trace
of the tick contains the none intent, refuting that evaluate is invoked
only when the kind differs from none. -/
theorem C8_none_intent_reaches_evaluate_counterexample :
    (ORBITOrchestrator.main_loop_iteration {} (BehaviorFSM.init 0) {} C8context false none
        1000 9 0 0).evalCalls = [C8noneIntent]
    ∧ C8noneIntent.type = IntentType.NONE := by
  with_unfolding_all decide

set_option maxHeartbeats 1000000 in
/-- C8 amended: the v2 orchestrator hands every successfully proposed
intent to evaluate, whatever its kind — none intents are not
short-circuited; a none intent from the fallback path carries confidence
0, and a zero-confidence intent is always rejected by the threshold. -/
theorem C8_every_intent_reaches_evaluate_amended (engine : DecisionEngine)
    (fsm : BehaviorFSM) (pool : DummyModePool) (context : Context) (oa : Bool)
    (oresp : Option OllamaParsed) (now : ℚ) (hour pick : ℕ) (noise : ℚ) :
    (∀ (intent : Intent) (pool₂ : DummyModePool),
        AIBrainV2.generate_intent oa oresp pool context now hour pick noise
          = (PyResult.ok intent, pool₂) →
        (ORBITOrchestrator.main_loop_iteration engine fsm pool context oa oresp
            now hour pick noise).evalCalls = [intent])
    ∧ (∀ i : Intent,
        (AIBrainV2.generate_with_dummy pool context now hour pick noise).1
          = PyResult.ok i →
        i.type = IntentType.NONE →
        i.confidence = 0)
    ∧ (∀ intent : Intent,
        intent.confidence = 0 →
        (engine.evaluate intent context 0.0 now).1.approved = false) := by
  refine ⟨?_, ?_, ?_⟩
  · intro intent pool₂ hgen
    unfold ORBITOrchestrator.main_loop_iteration
    rw [hgen]
  · intro i hm1 htype
    simp only [AIBrainV2.generate_with_dummy] at hm1
    rcases hap : context.active_app with _ | app
    · rw [hap] at hm1
      simp at hm1
    rw [hap] at hm1
    dsimp only at hm1
    split_ifs at hm1
    · rcases hg : pool.get_message IntentType.SUGGEST_HELP (some context) now hour pick
        with ⟨r, p₂⟩
      rw [hg] at hm1
      cases r with
      | exc e => exact PyResult.noConfusion hm1
      | ok mo =>
        cases mo with
        | some m =>
          dsimp only at hm1
          split_ifs at hm1
          · simp only [PyResult.ok.injEq] at hm1
            subst hm1
            exact absurd htype (by simp)
          · simp only [PyResult.ok.injEq] at hm1
            subst hm1
            norm_num
        | none =>
          dsimp only at hm1
          simp only [PyResult.ok.injEq] at hm1
          subst hm1
          norm_num
    · simp only [PyResult.ok.injEq] at hm1
      subst hm1
      norm_num
  · intro intent hconf
    have clamp_lt : ∀ E : ℚ, E ≤ 0 → max 0 (min 1 E) < CONFIDENCE_THRESHOLD := by
      intro E hE
      have h1 : min 1 E ≤ 0 := le_trans (min_le_right 1 E) hE
      have h2 : max 0 (min 1 E) ≤ 0 := max_le le_rfl h1
      unfold CONFIDENCE_THRESHOLD
      linarith
    have hd : (engine.confidence_decay.apply_decay intent context 0.0).1
        < CONFIDENCE_THRESHOLD := by
      simp only [ConfidenceDecay.apply_decay, hconf]
      rw [if_neg (by norm_num : ¬(60 : ℚ) < 0.0)]
      have hmn := mul_nonneg (by norm_num : (0:ℚ) ≤ 0.1)
        (Nat.cast_nonneg (engine.confidence_decay.dismiss_count intent.type))
      split_ifs <;> apply clamp_lt <;> linarith
    simp only [DecisionEngine.evaluate]
    rw [if_pos hd]

/-- Witness for C8 amended: the none intent of a non-interesting tick is
passed to evaluate and rejected by the threshold. -/
theorem C8_every_intent_reaches_evaluate_amended_witness :
    (ORBITOrchestrator.main_loop_iteration {} (BehaviorFSM.init 0) {} C8context false none
        1000 9 0 0).evalCalls = [C8noneIntent]
    ∧ (({} : DecisionEngine).evaluate C8noneIntent C8context 0.0 1000).1.approved = false :=
  ⟨(C8_every_intent_reaches_evaluate_amended {} (BehaviorFSM.init 0) {} C8context false none
      1000 9 0 0).1 C8noneIntent {} (by with_unfolding_all rfl),
   (C8_every_intent_reaches_evaluate_amended {} (BehaviorFSM.init 0) {} C8context false none
      1000 9 0 0).2.2 C8noneIntent (by norm_num [C8noneIntent])⟩
